import Mathlib

/-!
Verification of the TERMGAME mission execution engine.

This file is a shallow embedding, in Lean 4, of the components of the
TERMGAME repository that the specification's claims concern:

- the circuit breaker (src/termgame/runtimes/health.py),
- the Docker runtime retry loop (src/termgame/runtimes/docker_runtime.py)
  and its exception hierarchy (src/termgame/runtimes/exceptions.py),
- the matcher strategy registry (src/termgame/matchers/registry.py) and
  the matcher implementations (src/termgame/matchers/implementations.py),
- the in-memory mission state (src/termgame/engine/state.py),
- the scenario data model (src/termgame/models/scenario.py),
- the mission engine (src/termgame/engine/mission_engine.py) together with
  the persisted progress records (src/termgame/db/models.py).

Python conventions used throughout the embedding: machine floats that only
ever feed order comparisons and affine arithmetic (timestamps, delays) are
modelled as rationals; stateful methods become explicit state passing;
fallible code returns an Except value; calls issued to the container daemon
and the database are recorded as explicit event traces so that theorems can
speak about which remote calls a code path performs.  Timestamp columns of
the database records are omitted: no claim mentions them.
-/

/-! ## Generic helpers (association lists standing for Python dicts,
first-match updates standing for SQLAlchemy row updates) -/

/-- Lookup in an association list (Python dict read `d.get(k)`). -/
def lookupKey {α : Type} (l : List (String × α)) (k : String) : Option α :=
  (l.find? (fun p => p.1 == k)).map (fun p => p.2)

/-- Dict assignment `d[k] = v`: replace the binding if present, else append. -/
def setKey {α : Type} (l : List (String × α)) (k : String) (v : α) :
    List (String × α) :=
  if (lookupKey l k).isSome then
    l.map (fun p => if p.1 == k then (k, v) else p)
  else l ++ [(k, v)]

/-- In-place mutation of the value bound to a key (Python objects stored in a
dict are aliased, so mutating the object rewrites the table's view of it). -/
def updateKey {α : Type} (l : List (String × α)) (k : String) (v : α) :
    List (String × α) :=
  l.map (fun p => if p.1 == k then (k, v) else p)

/-- Dict deletion `del d[k]`. -/
def eraseKey {α : Type} (l : List (String × α)) (k : String) :
    List (String × α) :=
  l.filter (fun p => p.1 != k)

/-- Update the first element satisfying a predicate, leave the rest alone
(the SQLAlchemy pattern `result.scalars().first()` followed by mutating the
returned row). -/
def updateFirst {α : Type} (p : α → Bool) (f : α → α) : List α → List α
  | [] => []
  | x :: xs => if p x then f x :: xs else x :: updateFirst p f xs

/-! ## Circuit breaker (runtimes/health.py, class HealthCheck) -/

/-- State of the connection-health circuit breaker, with the field defaults
of the Python dataclass.  Timestamps (`time.time()` values) are rationals. -/
structure HealthCheck where
  last_success : ℚ := 0
  consecutive_failures : Nat := 0
  circuit_open : Bool := false
  max_failures : Nat := 5
  circuit_timeout : ℚ := 30
  deriving Repr, DecidableEq

/-- HealthCheck.record_success: reset the failure count and close the
circuit; `now` is the value of `time.time()` at the call. -/
def HealthCheck.record_success (h : HealthCheck) (now : ℚ) : HealthCheck :=
  { h with last_success := now, consecutive_failures := 0, circuit_open := false }

/-- HealthCheck.record_failure: increment the failure count and open the
circuit once the count reaches `max_failures`. -/
def HealthCheck.record_failure (h : HealthCheck) : HealthCheck :=
  let fails := h.consecutive_failures + 1
  { h with
      consecutive_failures := fails,
      circuit_open := if h.max_failures ≤ fails then true else h.circuit_open }

/-- HealthCheck.should_attempt: gate consulted before every daemon call.
Returns the decision together with the (possibly reset) state; `now` is the
value of `time.time()` at the call. -/
def HealthCheck.should_attempt (h : HealthCheck) (now : ℚ) :
    Bool × HealthCheck :=
  if h.circuit_open = false then (true, h)
  else if h.circuit_timeout < now - h.last_success then
    (true, { h with circuit_open := false, consecutive_failures := 0 })
  else (false, h)

/-- A HealthCheck with every field at its dataclass default
(`last_success = 0.0`, `max_failures = 5`, `circuit_timeout = 30`). -/
def healthDefault : HealthCheck := {}

/-! Helper lemmas about iterated failures. -/

theorem record_failure_last_success (h : HealthCheck) :
    (HealthCheck.record_failure h).last_success = h.last_success := rfl

theorem iterate_record_failure_fields (h : HealthCheck) (n : Nat) :
    (HealthCheck.record_failure^[n] h).last_success = h.last_success ∧
    (HealthCheck.record_failure^[n] h).circuit_timeout = h.circuit_timeout ∧
    (HealthCheck.record_failure^[n] h).max_failures = h.max_failures ∧
    (HealthCheck.record_failure^[n] h).consecutive_failures =
      h.consecutive_failures + n := by
  induction n with
  | zero => simp
  | succ m ih =>
    rw [Function.iterate_succ_apply']
    refine ⟨ih.1, ih.2.1, ih.2.2.1, ?_⟩
    show (HealthCheck.record_failure^[m] h).consecutive_failures + 1 = _
    rw [ih.2.2.2]
    omega

theorem iterate_record_failure_opens (h : HealthCheck) (n : Nat)
    (h1 : 1 ≤ n) (hn : h.max_failures ≤ h.consecutive_failures + n) :
    (HealthCheck.record_failure^[n] h).circuit_open = true := by
  obtain ⟨m, rfl⟩ : ∃ m, n = m + 1 := ⟨n - 1, by omega⟩
  rw [Function.iterate_succ_apply']
  have hfields := iterate_record_failure_fields h m
  show (if (HealthCheck.record_failure^[m] h).max_failures ≤
        (HealthCheck.record_failure^[m] h).consecutive_failures + 1
        then true else _) = true
  rw [hfields.2.2.1, hfields.2.2.2, if_pos (by omega)]

/-- C2 counterexample: the claim asserts that after `max_failures`
consecutive `record_failure()` calls with no intervening `record_success()`,
`should_attempt()` returns false.  On a fresh default HealthCheck
(`last_success = 0.0`, `max_failures = 5`, `circuit_timeout = 30`), after
five consecutive failures a `should_attempt()` call at time 31 returns true
(the epoch-based elapsed time already exceeds the circuit timeout), refuting
the claim as stated. -/
theorem should_attempt_after_failures_counterexample :
    ((HealthCheck.record_failure^[5] healthDefault).should_attempt 31).1 = true := by
  have hfields := iterate_record_failure_fields healthDefault 5
  have hopen : (HealthCheck.record_failure^[5] healthDefault).circuit_open = true :=
    iterate_record_failure_opens healthDefault 5 (by norm_num)
      (by norm_num [healthDefault])
  unfold HealthCheck.should_attempt
  rw [hopen, hfields.1, hfields.2.1]
  norm_num [healthDefault]

/-- C2 (amended): for every HealthCheck with `max_failures ≥ 1`, after
`max_failures` consecutive `record_failure()` calls with no intervening
`record_success()`, `should_attempt()` returns false provided at most
`circuit_timeout` seconds have elapsed past `last_success`; once more than
`circuit_timeout` seconds have elapsed past `last_success`, the next
`should_attempt()` call returns true and resets `consecutive_failures` to 0
(closing the circuit). -/
theorem circuit_breaker_open_close_amended (h : HealthCheck) (now : ℚ)
    (hmax : 1 ≤ h.max_failures) :
    (now - h.last_success ≤ h.circuit_timeout →
      ((HealthCheck.record_failure^[h.max_failures] h).should_attempt now).1 = false) ∧
    (h.circuit_timeout < now - h.last_success →
      ((HealthCheck.record_failure^[h.max_failures] h).should_attempt now).1 = true ∧
      ((HealthCheck.record_failure^[h.max_failures] h).should_attempt now).2.consecutive_failures = 0) := by
  have hfields := iterate_record_failure_fields h h.max_failures
  have hopen := iterate_record_failure_opens h h.max_failures hmax (by omega)
  unfold HealthCheck.should_attempt
  rw [hopen, hfields.1, hfields.2.1]
  constructor
  · intro hle
    rw [if_neg (by simp), if_neg (by exact not_lt.mpr hle)]
  · intro hlt
    rw [if_neg (by simp), if_pos hlt]
    exact ⟨rfl, rfl⟩

/-- C2 witness: the amended circuit-breaker theorem instantiated on the
default HealthCheck, probing `should_attempt` at times 10 (within the
timeout window: blocked) and 31 (past the timeout: allowed, count reset). -/
theorem circuit_breaker_open_close_amended_witness :
    ((HealthCheck.record_failure^[healthDefault.max_failures] healthDefault).should_attempt 10).1 = false ∧
    ((HealthCheck.record_failure^[healthDefault.max_failures] healthDefault).should_attempt 31).1 = true ∧
    ((HealthCheck.record_failure^[healthDefault.max_failures] healthDefault).should_attempt 31).2.consecutive_failures = 0 := by
  refine ⟨(circuit_breaker_open_close_amended healthDefault 10
      (by norm_num [healthDefault])).1 (by norm_num [healthDefault]),
    ((circuit_breaker_open_close_amended healthDefault 31
      (by norm_num [healthDefault])).2 (by norm_num [healthDefault])).1,
    ((circuit_breaker_open_close_amended healthDefault 31
      (by norm_num [healthDefault])).2 (by norm_num [healthDefault])).2⟩

/-! ## Engine and Python exception model

Engine exceptions come from engine/exceptions.py; `keyError`,
`attributeError` and `typeError` model the Python builtins that the engine
code can let escape unwrapped. -/

inductive ExcKind
  | missionNotFound
  | missionAlreadyActive
  | containerCreation
  | validationFailed
  | stepNotFound
  | scenarioLoad
  | keyError
  | attributeError
  | typeError
  deriving Repr, DecidableEq

/-- An exception value: its class together with its message string. -/
structure Exc where
  kind : ExcKind
  msg : String
  deriving Repr, DecidableEq

/-! ## Matchers (matchers/implementations.py, matchers/registry.py) -/

/-- Bool-valued test that `needle` is a prefix of `hay` (element-wise). -/
def listStarts {α : Type} [DecidableEq α] : List α → List α → Bool
  | [], _ => true
  | _ :: _, [] => false
  | a :: as, b :: bs => decide (a = b) && listStarts as bs

/-- Bool-valued test that `needle` occurs contiguously inside `hay`; embeds
the Python substring operator `needle in hay` on strings (character lists).
The empty needle occurs in every list, as in Python. -/
def listOccurs {α : Type} [DecidableEq α] (needle : List α) : List α → Bool
  | [] => listStarts needle []
  | b :: bs => listStarts needle (b :: bs) || listOccurs needle bs

/-- The three matcher strategy classes of matchers/implementations.py.  A
matcher instance carries no state, so the class doubles as the instance. -/
inductive MatcherKind
  | exactMatcher
  | containsMatcher
  | existsMatcher
  deriving Repr, DecidableEq

/-- Matcher.matches(actual, expected).  `expected` is the scenario's
optional expected value (None becomes `none`).  ExactMatcher compares for
equality (`actual == None` is False in Python); ContainsMatcher evaluates
`expected in actual`, which raises TypeError when expected is None;
ExistsMatcher ignores `expected` and tests `actual == "true"`. -/
def MatcherKind.matches : MatcherKind → String → Option String → Except Exc Bool
  | .exactMatcher, actual, expected =>
    .ok (match expected with
         | some e => actual == e
         | none => false)
  | .containsMatcher, actual, expected =>
    (match expected with
     | some e => .ok (listOccurs e.data actual.data)
     | none =>
       .error { kind := .typeError, msg := "argument of type NoneType is not iterable" })
  | .existsMatcher, actual, _ => .ok (actual == "true")

/-- The matcher registry: a dict from strategy name to matcher class. -/
structure MatcherRegistry where
  matchers : String → Option MatcherKind

/-- MatcherRegistry.register(name, matcher_class): dict assignment. -/
def MatcherRegistry.register (r : MatcherRegistry) (name : String)
    (k : MatcherKind) : MatcherRegistry :=
  { matchers := fun n => if n == name then some k else r.matchers n }

/-- MatcherRegistry.get(name): raises KeyError("Matcher not registered:
name") for an unknown name, otherwise returns the registered class. -/
def MatcherRegistry.get (r : MatcherRegistry) (name : String) :
    Except Exc MatcherKind :=
  match r.matchers name with
  | none => .error { kind := .keyError, msg := "Matcher not registered: " ++ name }
  | some k => .ok k

/-- MatcherRegistry.create(name): look the class up and instantiate it (a
stateless matcher class instantiates to itself in this model). -/
def MatcherRegistry.create (r : MatcherRegistry) (name : String) :
    Except Exc MatcherKind :=
  match r.get name with
  | .ok matcherClass => .ok matcherClass
  | .error e => .error e

/-- The registry with no strategies registered yet (MatcherRegistry()). -/
def emptyRegistry : MatcherRegistry := { matchers := fun _ => none }

/-- The registry the application builds in cli_utils.py lines 75-77:
exact, contains and exists, in that order. -/
def standardRegistry : MatcherRegistry :=
  ((emptyRegistry.register "exact" .exactMatcher).register
    "contains" .containsMatcher).register "exists" .existsMatcher

/-- The error `create` raises for an unknown strategy name (the spec calls
this condition MatcherNotRegistered; the code raises a KeyError whose
message is "Matcher not registered: name"). -/
def matcherNotRegisteredError (name : String) : Exc :=
  { kind := .keyError, msg := "Matcher not registered: " ++ name }

/-- C7: for every name not registered in the matcher registry, create(name)
fails with the MatcherNotRegistered error (a KeyError reading "Matcher not
registered: name"); for every registered name, create returns an instance
of the registered strategy class. -/
theorem matcher_registry_create_spec (r : MatcherRegistry) (name : String) :
    (r.matchers name = none →
      r.create name = .error (matcherNotRegisteredError name)) ∧
    (∀ k : MatcherKind, r.matchers name = some k →
      r.create name = .ok k) := by
  constructor
  · intro hnone
    simp [MatcherRegistry.create, MatcherRegistry.get, hnone,
      matcherNotRegisteredError]
  · intro k hk
    simp [MatcherRegistry.create, MatcherRegistry.get, hk]

/-- C7 witness: on the application's standard registry, "regex" (a matcher
name the scenario schema allows but nothing registers) fails with the
MatcherNotRegistered KeyError, and "contains" creates the ContainsMatcher. -/
theorem matcher_registry_create_spec_witness :
    standardRegistry.create "regex" = .error (matcherNotRegisteredError "regex") ∧
    standardRegistry.create "contains" = .ok MatcherKind.containsMatcher := by
  exact ⟨(matcher_registry_create_spec standardRegistry "regex").1 rfl,
    (matcher_registry_create_spec standardRegistry "contains").2
      MatcherKind.containsMatcher rfl⟩

/-! ## Scenario data model (models/scenario.py) -/

/-- Mission metadata block of a scenario file. -/
structure MissionMetadata where
  id : String
  title : String
  difficulty : String
  description : String
  estimated_time : Int
  tags : List String := []
  deriving Repr, DecidableEq

/-- Container environment configuration.  The Pydantic model declares
exactly two fields: `image` and `setup`.  (The mission YAML files and the
engine additionally speak of a `workdir`; the model does not declare it,
which matters for start_mission below.) -/
structure Environment where
  image : String
  setup : List String := []
  deriving Repr, DecidableEq

/-- The validation type literal: command-output, file-content or
file-exists. -/
inductive ValidationType
  | commandOutput
  | fileContent
  | fileExists
  deriving Repr, DecidableEq

/-- Validation rules for a mission step.  `matcher` is the strategy name
(the schema allows exact, contains, regex and exists). -/
structure StepValidation where
  type : ValidationType
  command : Option String := none
  file : Option String := none
  matcher : String
  expected : Option String := none
  deriving Repr, DecidableEq

/-- One mission step. -/
structure Step where
  id : String
  title : String
  description : String
  hint : String
  validation : StepValidation
  deriving Repr, DecidableEq

/-- Mission completion configuration. -/
structure Completion where
  message : String
  xp : Int
  unlocks : List String := []
  deriving Repr, DecidableEq

/-- A complete scenario loaded from a YAML file. -/
structure Scenario where
  mission : MissionMetadata
  environment : Environment
  steps : List Step
  completion : Completion
  deriving Repr, DecidableEq

/-! ## Containers and mission state (runtimes/base.py, engine/state.py) -/

/-- A container handle: the Container protocol of runtimes/base.py exposes
`id` and `name`. -/
structure Container where
  id : String
  name : String
  deriving Repr, DecidableEq

/-- In-memory state for an active mission (dataclass MissionState), with
the dataclass field defaults for `current_step_index` and
`completed_steps`. -/
structure MissionState where
  mission_id : String
  user_id : Nat
  scenario : Scenario
  container : Container
  current_step_index : Nat := 0
  completed_steps : List String := []
  deriving Repr, DecidableEq

/-- MissionState.current_step: the step at the current index, or None when
every step is completed. -/
def MissionState.current_step (s : MissionState) : Option Step :=
  if s.current_step_index < s.scenario.steps.length then
    s.scenario.steps[s.current_step_index]?
  else none

/-- MissionState.is_completed: true when the index has reached the number
of steps. -/
def MissionState.is_completed (s : MissionState) : Bool :=
  s.scenario.steps.length ≤ s.current_step_index

/-- MissionState.advance_step: when not completed, append the current
step's id to the completed list and increment the index; otherwise do
nothing. -/
def MissionState.advance_step (s : MissionState) : MissionState :=
  if s.is_completed then s
  else
    match s.current_step with
    | some current =>
      { s with completed_steps := s.completed_steps ++ [current.id],
               current_step_index := s.current_step_index + 1 }
    | none => { s with current_step_index := s.current_step_index + 1 }

/-- The MissionState that start_mission constructs (mission_engine.py lines
139-145): the dataclass defaults give step index 0 and no completed
steps. -/
def MissionState.init (mission_id : String) (user_id : Nat) (scenario : Scenario)
    (container : Container) : MissionState :=
  { mission_id := mission_id, user_id := user_id,
    scenario := scenario, container := container }

/-! Helper lemmas: the shape of a mission state reached from the freshly
started state by iterating advance_step. -/

theorem advance_step_scenario (s : MissionState) :
    s.advance_step.scenario = s.scenario := by
  unfold MissionState.advance_step
  split
  · rfl
  · split <;> rfl

theorem advance_step_of_completed (s : MissionState)
    (h : s.is_completed = true) : s.advance_step = s := by
  unfold MissionState.advance_step
  rw [h]
  simp

theorem advance_step_of_current (s : MissionState) (st : Step)
    (h1 : s.is_completed = false) (h2 : s.current_step = some st) :
    s.advance_step =
      { s with completed_steps := s.completed_steps ++ [st.id],
               current_step_index := s.current_step_index + 1 } := by
  unfold MissionState.advance_step
  rw [h1, h2]
  simp

theorem is_completed_false_of_current_step (s : MissionState) (st : Step)
    (h : s.current_step = some st) : s.is_completed = false := by
  unfold MissionState.current_step at h
  unfold MissionState.is_completed
  by_cases hlt : s.current_step_index < s.scenario.steps.length
  · simp [Nat.not_le.mpr hlt]
  · rw [if_neg hlt] at h
    exact absurd h (by simp)

theorem iterate_advance_from_init (sc : Scenario) (mid : String) (uid : Nat)
    (c : Container) (n : Nat) :
    (MissionState.advance_step^[n] (MissionState.init mid uid sc c)).scenario = sc ∧
    (MissionState.advance_step^[n] (MissionState.init mid uid sc c)).current_step_index
      = min n sc.steps.length ∧
    (MissionState.advance_step^[n] (MissionState.init mid uid sc c)).completed_steps
      = (sc.steps.take (min n sc.steps.length)).map Step.id := by
  induction n with
  | zero => simp [MissionState.init]
  | succ m ih =>
    rw [Function.iterate_succ_apply']
    obtain ⟨ihsc, ihidx, ihdone⟩ := ih
    by_cases hlt : m < sc.steps.length
    · have hmin : min m sc.steps.length = m := by omega
      rw [hmin] at ihidx ihdone
      have hnc : (MissionState.advance_step^[m]
          (MissionState.init mid uid sc c)).is_completed = false := by
        unfold MissionState.is_completed
        rw [ihsc, ihidx]
        simp [Nat.not_le.mpr hlt]
      have hcs : (MissionState.advance_step^[m]
          (MissionState.init mid uid sc c)).current_step = some sc.steps[m] := by
        unfold MissionState.current_step
        rw [ihsc, ihidx, if_pos hlt, List.getElem?_eq_getElem hlt]
      rw [advance_step_of_current _ _ hnc hcs]
      refine ⟨ihsc, ?_, ?_⟩
      · show _ + 1 = _
        rw [ihidx]
        omega
      · show _ ++ [_] = _
        rw [ihdone]
        have hmin1 : min (m + 1) sc.steps.length = m + 1 := by omega
        rw [hmin1, List.take_succ, List.getElem?_eq_getElem hlt]
        rw [List.map_append]
        rfl
    · have hmin : min m sc.steps.length = sc.steps.length := by omega
      have hc : (MissionState.advance_step^[m]
          (MissionState.init mid uid sc c)).is_completed = true := by
        unfold MissionState.is_completed
        rw [ihsc, ihidx, hmin]
        simp
      rw [advance_step_of_completed _ hc]
      have hmin1 : min (m + 1) sc.steps.length = sc.steps.length := by omega
      exact ⟨ihsc, by rw [ihidx, hmin, hmin1], by rw [ihdone, hmin, hmin1]⟩

/-- C6: for every mission state created at mission start (step index 0) and
driven by any number of advance_step operations (the only mutator), the
current step index stays within the closed interval from 0 to the number of
scenario steps (the lower bound holds because the index is a natural
number), never decreases as more operations run, and is_completed holds
exactly when the index equals the number of steps. -/
theorem mission_state_index_invariant (sc : Scenario) (mid : String)
    (uid : Nat) (c : Container) (m n : Nat) (hmn : m ≤ n) :
    (MissionState.advance_step^[n] (MissionState.init mid uid sc c)).current_step_index
      ≤ sc.steps.length ∧
    (MissionState.advance_step^[m] (MissionState.init mid uid sc c)).current_step_index
      ≤ (MissionState.advance_step^[n] (MissionState.init mid uid sc c)).current_step_index ∧
    ((MissionState.advance_step^[n] (MissionState.init mid uid sc c)).is_completed = true ↔
      (MissionState.advance_step^[n] (MissionState.init mid uid sc c)).current_step_index
        = sc.steps.length) := by
  have hn := iterate_advance_from_init sc mid uid c n
  have hm := iterate_advance_from_init sc mid uid c m
  refine ⟨?_, ?_, ?_⟩
  · rw [hn.2.1]; omega
  · rw [hn.2.1, hm.2.1]; omega
  · unfold MissionState.is_completed
    rw [hn.1, hn.2.1]
    simp only [decide_eq_true_eq]
    omega

/-! Sample concrete data used by witnesses, shaped after the
tests/conftest.py fixture scenario. -/

def sampleValidation1 : StepValidation :=
  { type := .commandOutput, command := some "pwd",
    matcher := "exact", expected := some "/home/learner" }

def sampleStep1 : Step :=
  { id := "check-current-dir", title := "Check the current directory",
    description := "Print the working directory", hint := "Use pwd",
    validation := sampleValidation1 }

def sampleValidation2 : StepValidation :=
  { type := .fileExists, file := some "/home/learner/notes.txt",
    matcher := "exists" }

def sampleStep2 : Step :=
  { id := "create-notes", title := "Create a notes file",
    description := "Create notes.txt in the home directory",
    hint := "Use touch", validation := sampleValidation2 }

def sampleMetadata : MissionMetadata :=
  { id := "linux/basics/navigation", title := "Navigation",
    difficulty := "beginner", description := "Learn to move around",
    estimated_time := 15, tags := ["linux"] }

def sampleEnvironment : Environment :=
  { image := "ubuntu:22.04", setup := ["mkdir -p /home/learner/documents"] }

def sampleCompletion : Completion :=
  { message := "Great job", xp := 50, unlocks := [] }

def sampleScenario : Scenario :=
  { mission := sampleMetadata, environment := sampleEnvironment,
    steps := [sampleStep1, sampleStep2], completion := sampleCompletion }

def sampleContainer : Container :=
  { id := "abc123", name := "termgame-linux-basics-navigation-1" }

/-- C6 witness: the index invariant instantiated on the sample two-step
scenario after one and after three advance_step operations. -/
theorem mission_state_index_invariant_witness :
    (MissionState.advance_step^[3]
      (MissionState.init "demo" 1 sampleScenario sampleContainer)).current_step_index
      ≤ sampleScenario.steps.length ∧
    (MissionState.advance_step^[1]
      (MissionState.init "demo" 1 sampleScenario sampleContainer)).current_step_index
      ≤ (MissionState.advance_step^[3]
        (MissionState.init "demo" 1 sampleScenario sampleContainer)).current_step_index ∧
    ((MissionState.advance_step^[3]
      (MissionState.init "demo" 1 sampleScenario sampleContainer)).is_completed = true ↔
      (MissionState.advance_step^[3]
        (MissionState.init "demo" 1 sampleScenario sampleContainer)).current_step_index
        = sampleScenario.steps.length) :=
  mission_state_index_invariant sampleScenario "demo" 1 sampleContainer 1 3
    (by omega)

/-- C9: for every mission state created by start_mission (the construction
with the dataclass defaults: index 0, no completed steps) and mutated only
through advance_step, completed_steps always equals, in order, the ids of
the scenario's steps with indices 0 through current_step_index - 1; and
whenever a state has a current step, advance_step (the operation a
successful current-step validation performs) appends exactly that step's
id. -/
theorem completed_steps_prefix_invariant (sc : Scenario) (mid : String)
    (uid : Nat) (c : Container) (n : Nat) :
    (MissionState.advance_step^[n] (MissionState.init mid uid sc c)).completed_steps
      = (sc.steps.take
          ((MissionState.advance_step^[n]
            (MissionState.init mid uid sc c)).current_step_index)).map Step.id ∧
    (∀ s : MissionState, ∀ st : Step, s.current_step = some st →
      s.advance_step.completed_steps = s.completed_steps ++ [st.id]) := by
  refine ⟨?_, ?_⟩
  · have h := iterate_advance_from_init sc mid uid c n
    rw [h.2.1, h.2.2]
  · intro s st hst
    have h1 := is_completed_false_of_current_step s st hst
    rw [advance_step_of_current s st h1 hst]

/-- C9 witness: the prefix invariant instantiated on the sample scenario
after one advance, plus the append behaviour at the freshly started state
whose current step is the first sample step. -/
theorem completed_steps_prefix_invariant_witness :
    (MissionState.advance_step^[1]
      (MissionState.init "demo" 1 sampleScenario sampleContainer)).completed_steps
      = (sampleScenario.steps.take
          ((MissionState.advance_step^[1]
            (MissionState.init "demo" 1 sampleScenario sampleContainer)).current_step_index)).map Step.id ∧
    (MissionState.init "demo" 1 sampleScenario sampleContainer).advance_step.completed_steps
      = (MissionState.init "demo" 1 sampleScenario sampleContainer).completed_steps
        ++ [sampleStep1.id] :=
  ⟨(completed_steps_prefix_invariant sampleScenario "demo" 1 sampleContainer 1).1,
   (completed_steps_prefix_invariant sampleScenario "demo" 1 sampleContainer 1).2
     (MissionState.init "demo" 1 sampleScenario sampleContainer) sampleStep1
     (by decide)⟩

/-! ## Runtime exceptions (runtimes/exceptions.py)

Each exception class is modelled as a kind tag plus the message and the
`transient` marker its constructor sets. -/

inductive RtKind
  | connectionError
  | containerNotFound
  | commandTimeout
  | imagePull
  | runtimeBase
  | unexpectedRuntime
  deriving Repr, DecidableEq

/-- A runtime exception value: class kind, message, transient marker. -/
structure RtExc where
  kind : RtKind
  msg : String
  transient : Bool
  deriving Repr, DecidableEq

/-- ConnectionError(message): transient is always true. -/
def connectionErrorExc (msg : String) : RtExc :=
  { kind := .connectionError, msg := msg, transient := true }

/-- ContainerNotFoundError(message): transient is always false. -/
def containerNotFoundExc (msg : String) : RtExc :=
  { kind := .containerNotFound, msg := msg, transient := false }

/-- ImagePullError(message): transient is always true. -/
def imagePullExc (msg : String) : RtExc :=
  { kind := .imagePull, msg := msg, transient := true }

/-- The builtin RuntimeError the docker runtime raises on an unexpected
error (not part of the module's own hierarchy). -/
def unexpectedRuntimeExc (msg : String) : RtExc :=
  { kind := .unexpectedRuntime, msg := msg, transient := false }

/-! ## Mission engine (engine/mission_engine.py)

The engine's collaborators are modelled as behaviours: the container
runtime is a pair of response functions (deterministic for a given run),
and the database is an explicit record store.  Remote calls the engine
issues are returned as an event list. -/

/-- The ContainerRuntime protocol as the engine sees it: responses for
create_container and execute_command.  stop/remove are best-effort and
never fail, so they need no response function. -/
structure RtBehavior where
  create : String → String → String → Except RtExc Container
  exec : Container → String → Except RtExc String

/-- Remote calls the engine can issue during an operation. -/
inductive EngEvent
  | createCall (image : String) (cname : String) (workingDir : String)
  | execCall (c : Container) (cmd : String)
  | stopCall (c : Container)
  | removeCall (c : Container)
  deriving Repr, DecidableEq

/-- A persisted MissionProgress row (db/models.py), without the timestamp
columns, which no claim mentions. -/
structure ProgressRecord where
  user_id : Nat
  mission_id : String
  current_step_id : Option String := none
  current_step_index : Nat := 0
  completed : Bool := false
  container_id : Option String := none
  container_name : Option String := none
  steps_completed : List String := []
  xp_earned : Int := 0
  deriving Repr, DecidableEq

/-- A persisted User row (db/models.py), reduced to the fields the engine
touches. -/
structure UserRec where
  id : Nat
  total_xp : Int := 0
  deriving Repr, DecidableEq

/-- The persistence store. -/
structure DB where
  progress : List ProgressRecord := []
  users : List UserRec := []
  deriving Repr, DecidableEq

/-- The engine's mutable state: the active-missions table plus the
database. -/
structure EngineState where
  active : List (String × MissionState) := []
  db : DB := {}
  deriving Repr, DecidableEq

/-- Python str() of an optional string as interpolated into an f-string:
None renders as "None". -/
def pyStr (o : Option String) : String := o.getD "None"

/-- The WHERE clause of every progress query the engine runs: user id,
mission id, completed == False. -/
def notCompletedPred (uid : Nat) (mid : String) (r : ProgressRecord) : Bool :=
  r.user_id == uid && r.mission_id == mid && r.completed == false

/-- First not-completed progress row for (user, mission), in insertion
order (`.scalars().first()`). -/
def findNotCompleted (db : DB) (uid : Nat) (mid : String) :
    Option ProgressRecord :=
  db.progress.find? (notCompletedPred uid mid)

/-- The probe command validate_step sends to the sandbox, by validation
type (mission_engine.py lines 222-240): the step's own command for
command-output (None becomes the empty command, `validation.command or
""`), a `test -f` one-liner for file-exists, and `cat` for
file-content. -/
def probeCommand (v : StepValidation) : String :=
  match v.type with
  | .commandOutput => v.command.getD ""
  | .fileExists =>
    "test -f " ++ pyStr v.file ++ " && echo \x27true\x27 || echo \x27false\x27"
  | .fileContent => "cat " ++ pyStr v.file

/-- The except-clauses of validate_step's probe (mission_engine.py lines
242-253): every runtime failure is wrapped into ValidationFailedError,
with a message chosen by the exception class. -/
def wrapValidationError (e : RtExc) : Exc :=
  match e.kind with
  | .containerNotFound =>
    { kind := .validationFailed, msg := "Container lost during validation: " ++ e.msg }
  | .connectionError =>
    { kind := .validationFailed, msg := "Connection error during validation: " ++ e.msg }
  | _ =>
    { kind := .validationFailed, msg := "Validation execution failed: " ++ e.msg }

/-- Drop leading whitespace characters from a character list. -/
def dropLeadingWs : List Char → List Char
  | [] => []
  | c :: cs => if c.isWhitespace then dropLeadingWs cs else c :: cs

/-- Python str.strip(): remove whitespace from both ends (modelled over the
ASCII whitespace characters). -/
def pyStrip (s : String) : String :=
  String.mk (dropLeadingWs (dropLeadingWs s.data.reverse).reverse)

/-- The probe of validate_step: run the type-directed check command in the
sandbox and strip the output; wrap any runtime failure. -/
def runValidation (rt : RtBehavior) (c : Container) (v : StepValidation) :
    Except Exc String × List EngEvent :=
  let cmd := probeCommand v
  match rt.exec c cmd with
  | .ok out => (.ok (pyStrip out), [.execCall c cmd])
  | .error e => (.error (wrapValidationError e), [.execCall c cmd])

/-- The database effect of _complete_mission (mission_engine.py lines
431-463): mark the not-completed progress row completed with the
scenario's XP and add that XP to the user's running total. -/
def complete_mission_db (uid : Nat) (mid : String) (sc : Scenario) (db : DB) : DB :=
  { progress := updateFirst (notCompletedPred uid mid)
      (fun r => { r with completed := true, xp_earned := sc.completion.xp }) db.progress,
    users := updateFirst (fun u => u.id == uid)
      (fun u => { u with total_xp := u.total_xp + sc.completion.xp }) db.users }

/-- The row mutation validate_step applies to the not-completed progress
record after a successful current-step advance (mission_engine.py lines
274-278). -/
def progressAdvanceUpdate (state1 : MissionState) (r : ProgressRecord) :
    ProgressRecord :=
  { r with current_step_index := state1.current_step_index,
           current_step_id := state1.current_step.map Step.id,
           steps_completed := state1.completed_steps }

/-- validate_step once the target step has been resolved (mission_engine.py
lines 219-286): probe, matcher lookup (outside the try block, so its
KeyError escapes unwrapped), comparison, and the conditional advance with
its persistence and completion side effects. -/
def validate_resolved (reg : MatcherRegistry) (rt : RtBehavior) (uid : Nat)
    (st : EngineState) (mission_id : String) (state : MissionState)
    (step : Step) : Except Exc Bool × EngineState × List EngEvent :=
  match runValidation rt state.container step.validation with
  | (.error e, evs) => (.error e, st, evs)
  | (.ok actual, evs) =>
    match reg.create step.validation.matcher with
    | .error e => (.error e, st, evs)
    | .ok matcher =>
      match matcher.matches actual step.validation.expected with
      | .error e => (.error e, st, evs)
      | .ok is_valid =>
        if is_valid && (state.current_step == some step) then
          let state1 := state.advance_step
          let active1 := updateKey st.active mission_id state1
          match findNotCompleted st.db uid mission_id with
          | none => (.ok is_valid, { active := active1, db := st.db }, evs)
          | some _ =>
            let db1 : DB :=
              { st.db with
                progress := updateFirst (notCompletedPred uid mission_id)
                              (progressAdvanceUpdate state1) st.db.progress }
            if state1.is_completed then
              (.ok is_valid,
               { active := eraseKey active1 mission_id,
                 db := complete_mission_db uid mission_id state1.scenario db1 },
               evs ++ [.stopCall state.container, .removeCall state.container])
            else
              (.ok is_valid, { active := active1, db := db1 }, evs)
        else (.ok is_valid, st, evs)

/-- MissionEngine.validate_step: resolve the active mission and the target
step (the current step by default, or an explicit step id looked up in the
scenario's step list), then validate. -/
def validate_step (reg : MatcherRegistry) (rt : RtBehavior) (uid : Nat)
    (st : EngineState) (mission_id : String) (step_id : Option String) :
    Except Exc Bool × EngineState × List EngEvent :=
  match lookupKey st.active mission_id with
  | none =>
    (.error { kind := .missionNotFound, msg := "Mission not active: " ++ mission_id }, st, [])
  | some state =>
    match step_id with
    | none =>
      match state.current_step with
      | none => (.ok false, st, [])
      | some step => validate_resolved reg rt uid st mission_id state step
    | some sid =>
      match state.scenario.steps.find? (fun s => s.id == sid) with
      | none =>
        (.error { kind := .stepNotFound, msg := "Step not found: " ++ sid }, st, [])
      | some step => validate_resolved reg rt uid st mission_id state step

/-! Engine fixtures used by witnesses. -/

/-- A progress row as start_mission would have written it for the sample
mission. -/
def sampleProgress : ProgressRecord :=
  { user_id := 1, mission_id := "linux/basics/navigation",
    current_step_id := some "check-current-dir",
    container_id := some "abc123",
    container_name := some "termgame-linux-basics-navigation-1" }

def sampleDB : DB :=
  { progress := [sampleProgress], users := [{ id := 1, total_xp := 0 }] }

/-- The freshly started in-memory state for the sample mission. -/
def sampleState0 : MissionState :=
  MissionState.init "linux/basics/navigation" 1 sampleScenario sampleContainer

def sampleEngineSt : EngineState :=
  { active := [("linux/basics/navigation", sampleState0)], db := sampleDB }

/-- A runtime behaviour that answers every create with the sample container
and every execute with the output "true". -/
def sampleRt : RtBehavior :=
  { create := fun _ _ _ => .ok sampleContainer, exec := fun _ _ => .ok "true" }

/-- The probe trace of runValidation is always exactly one execute call of
the probe command on the mission's container. -/
theorem runValidation_events (rt : RtBehavior) (c : Container)
    (v : StepValidation) :
    (runValidation rt c v).2 = [.execCall c (probeCommand v)] := by
  unfold runValidation
  cases h : rt.exec c (probeCommand v) <;> simp [h]

/-- C3: for every active mission and every scenario step that resolves via
its explicit step_id to a step other than the run's current step,
validate_step returns the boolean matcher result (whatever it is, a match
included) and leaves the engine state - current_step_index,
completed_steps, the active table and the persisted progress records -
entirely unchanged. -/
theorem validate_non_current_step_frame (reg : MatcherRegistry)
    (rt : RtBehavior) (uid : Nat) (st : EngineState) (mission_id : String)
    (state : MissionState) (sid : String) (step : Step) (actual : String)
    (pevs : List EngEvent) (matcher : MatcherKind) (b : Bool)
    (hactive : lookupKey st.active mission_id = some state)
    (hfind : state.scenario.steps.find? (fun s => s.id == sid) = some step)
    (hnotcur : state.current_step ≠ some step)
    (hprobe : runValidation rt state.container step.validation = (.ok actual, pevs))
    (hmatcher : reg.create step.validation.matcher = .ok matcher)
    (hmatch : matcher.matches actual step.validation.expected = .ok b) :
    validate_step reg rt uid st mission_id (some sid) = (.ok b, st, pevs) := by
  have hne : (state.current_step == some step) = false :=
    beq_eq_false_iff_ne.mpr hnotcur
  simp only [validate_step, hactive, hfind]
  simp only [validate_resolved, hprobe, hmatcher, hmatch, hne,
    Bool.and_false, Bool.false_eq_true, if_false]

/-- C3 witness: on the freshly started sample mission (current step
check-current-dir), explicitly validating the later create-notes step
against a runtime whose probe reports true yields the matcher result true
while the engine state, active table and progress records are unchanged. -/
theorem validate_non_current_step_frame_witness :
    validate_step standardRegistry sampleRt 1 sampleEngineSt
      "linux/basics/navigation" (some "create-notes")
      = (.ok true, sampleEngineSt,
         [.execCall sampleContainer (probeCommand sampleStep2.validation)]) :=
  validate_non_current_step_frame standardRegistry sampleRt 1 sampleEngineSt
    "linux/basics/navigation" sampleState0 "create-notes" sampleStep2 "true"
    [.execCall sampleContainer (probeCommand sampleStep2.validation)]
    MatcherKind.existsMatcher true (by decide) (by decide) (by decide)
    (by rfl) (by rfl) (by rfl)

/-- C10: in validate_step, the probe command is executed in the sandbox
before the matcher name is resolved from the registry; hence for a step
whose matcher name is unregistered, the remote check still runs (the probe
execute call is in the trace), the registry's KeyError propagates to the
caller unwrapped (its kind is a Python KeyError, not
ValidationFailedError), and the engine state is unchanged (no advance). -/
theorem validate_step_unregistered_matcher (reg : MatcherRegistry)
    (rt : RtBehavior) (uid : Nat) (st : EngineState) (mission_id : String)
    (state : MissionState) (sid : String) (step : Step) (actual : String)
    (pevs : List EngEvent)
    (hactive : lookupKey st.active mission_id = some state)
    (hfind : state.scenario.steps.find? (fun s => s.id == sid) = some step)
    (hreg : reg.matchers step.validation.matcher = none)
    (hprobe : runValidation rt state.container step.validation = (.ok actual, pevs)) :
    validate_step reg rt uid st mission_id (some sid)
      = (.error (matcherNotRegisteredError step.validation.matcher), st, pevs) ∧
    EngEvent.execCall state.container (probeCommand step.validation) ∈ pevs ∧
    (matcherNotRegisteredError step.validation.matcher).kind ≠ ExcKind.validationFailed := by
  have hcreate : reg.create step.validation.matcher
      = .error (matcherNotRegisteredError step.validation.matcher) := by
    simp [MatcherRegistry.create, MatcherRegistry.get, hreg,
      matcherNotRegisteredError]
  refine ⟨?_, ?_, ?_⟩
  · simp only [validate_step, hactive, hfind]
    simp only [validate_resolved, hprobe, hcreate]
  · have hev := runValidation_events rt state.container step.validation
    rw [hprobe] at hev
    have hev2 : pevs
        = [EngEvent.execCall state.container (probeCommand step.validation)] := hev
    rw [hev2]
    exact List.mem_singleton.mpr rfl
  · intro hk
    exact ExcKind.noConfusion hk

/-- Fixtures for the unregistered-matcher witness: a one-step scenario
whose step names the schema-legal but never registered "regex" strategy. -/

def regexValidation : StepValidation :=
  { type := .commandOutput, command := some "cat notes.txt",
    matcher := "regex", expected := some "hello" }

def regexStep : Step :=
  { id := "regex-step", title := "Pattern check",
    description := "Check the notes file against a pattern",
    hint := "Use cat", validation := regexValidation }

def regexScenario : Scenario :=
  { mission := sampleMetadata, environment := sampleEnvironment,
    steps := [regexStep], completion := sampleCompletion }

def regexState0 : MissionState :=
  MissionState.init "linux/basics/regex" 1 regexScenario sampleContainer

def regexEngineSt : EngineState :=
  { active := [("linux/basics/regex", regexState0)], db := sampleDB }

/-- C10 witness: validating the regex step on the standard registry runs
the probe (one execute call in the trace) and then fails with the
unwrapped KeyError, leaving the engine state unchanged. -/
theorem validate_step_unregistered_matcher_witness :
    validate_step standardRegistry sampleRt 1 regexEngineSt
      "linux/basics/regex" (some "regex-step")
      = (.error (matcherNotRegisteredError "regex"), regexEngineSt,
         [.execCall sampleContainer (probeCommand regexValidation)]) ∧
    EngEvent.execCall sampleContainer (probeCommand regexValidation)
      ∈ [EngEvent.execCall sampleContainer (probeCommand regexValidation)] ∧
    (matcherNotRegisteredError "regex").kind ≠ ExcKind.validationFailed := by
  have h := validate_step_unregistered_matcher standardRegistry sampleRt 1
    regexEngineSt "linux/basics/regex" regexState0 "regex-step" regexStep
    "true" [.execCall sampleContainer (probeCommand regexValidation)]
    (by decide) (by decide) (by rfl) (by rfl)
  exact ⟨h.1, h.2.1, h.2.2⟩

/-! ## start_mission (mission_engine.py lines 76-181) -/

/-- The Python attribute access `scenario.environment.workdir`
(mission_engine.py line 107).  The Pydantic Environment model
(models/scenario.py lines 27-33) declares only `image` and `setup` and
silently drops unknown YAML keys, so this access raises AttributeError for
every environment value. -/
def envWorkdir (_env : Environment) : Except Exc String :=
  .error { kind := .attributeError,
           msg := "\x27Environment\x27 object has no attribute \x27workdir\x27" }

/-- The container name start_mission derives from the mission id and user
id (mission_engine.py line 102). -/
def containerNameFor (mission_id : String) (uid : Nat) : String :=
  "termgame-" ++ (mission_id.replace "/" "-") ++ "-" ++ toString uid

/-- The except-clauses around create_container (mission_engine.py lines
109-120): ImagePullError, connection errors and any other exception all
become ContainerCreationError, with class-specific messages. -/
def wrapCreateError (e : RtExc) : Exc :=
  match e.kind with
  | .imagePull =>
    { kind := .containerCreation, msg := "Failed to pull image: " ++ e.msg }
  | .connectionError =>
    { kind := .containerCreation, msg := "Docker connection error: " ++ e.msg }
  | _ =>
    { kind := .containerCreation, msg := "Failed to create container: " ++ e.msg }

/-- The container-creation phase of start_mission (mission_engine.py lines
101-120): evaluate the create_container arguments (which dereferences the
missing workdir attribute) and issue the creation call; any failure becomes
ContainerCreationError. -/
def start_mission_create (rt : RtBehavior) (sc : Scenario) (cname : String) :
    Except Exc Container × List EngEvent :=
  match envWorkdir sc.environment with
  | .error e =>
    (.error { kind := .containerCreation, msg := "Failed to create container: " ++ e.msg }, [])
  | .ok wd =>
    match rt.create sc.environment.image cname wd with
    | .error e => (.error (wrapCreateError e), [.createCall sc.environment.image cname wd])
    | .ok c => (.ok c, [.createCall sc.environment.image cname wd])

/-- The except-clauses around the setup loop (mission_engine.py lines
126-137): a connection error and any other failure both become
ContainerCreationError after cleanup. -/
def wrapSetupError (e : RtExc) : Exc :=
  match e.kind with
  | .connectionError =>
    { kind := .containerCreation, msg := "Docker connection error during setup: " ++ e.msg }
  | _ =>
    { kind := .containerCreation, msg := "Setup failed: " ++ e.msg }

/-- The setup phase of start_mission (mission_engine.py lines 122-137): run
each setup command in sequence; on the first failure, best-effort tear the
just-created container down (stop then remove) and fail with
ContainerCreationError. -/
def run_setup (rt : RtBehavior) (c : Container) :
    List String → Except Exc Unit × List EngEvent
  | [] => (.ok (), [])
  | cmd :: rest =>
    match rt.exec c cmd with
    | .ok _ =>
      let tail := run_setup rt c rest
      (tail.1, .execCall c cmd :: tail.2)
    | .error e =>
      (.error (wrapSetupError e), [.execCall c cmd, .stopCall c, .removeCall c])

/-- The row mutation start_mission applies to an existing not-completed
progress record (mission_engine.py lines 160-168). -/
def progressStartUpdate (state : MissionState) (c : Container)
    (r : ProgressRecord) : ProgressRecord :=
  { r with current_step_id := state.current_step.map Step.id,
           current_step_index := 0,
           container_id := some c.id,
           container_name := some c.name }

/-- The fresh progress row start_mission inserts when no not-completed
record exists (mission_engine.py lines 170-179). -/
def progressNewRecord (uid : Nat) (mission_id : String) (state : MissionState)
    (c : Container) : ProgressRecord :=
  { user_id := uid, mission_id := mission_id,
    current_step_id := state.current_step.map Step.id,
    current_step_index := 0,
    container_id := some c.id, container_name := some c.name }

/-- The commit phase of start_mission (mission_engine.py lines 139-181):
insert the fresh MissionState into the active table and write or update in
place the not-completed progress record. -/
def start_mission_commit (st : EngineState) (uid : Nat) (mission_id : String)
    (sc : Scenario) (c : Container) : EngineState :=
  let state := MissionState.init mission_id uid sc c
  let active1 := setKey st.active mission_id state
  match findNotCompleted st.db uid mission_id with
  | some _ =>
    { active := active1,
      db := { st.db with
              progress := updateFirst (notCompletedPred uid mission_id)
                            (progressStartUpdate state c) st.db.progress } }
  | none =>
    { active := active1,
      db := { st.db with
              progress := st.db.progress ++ [progressNewRecord uid mission_id state c] } }

/-- MissionEngine.start_mission: already-active check, scenario load,
container creation, setup commands, then state and progress commit. -/
def start_mission (rt : RtBehavior) (loader : String → Except Exc Scenario)
    (uid : Nat) (st : EngineState) (mission_id : String) :
    Except Exc Unit × EngineState × List EngEvent :=
  match lookupKey st.active mission_id with
  | some _ =>
    (.error { kind := .missionAlreadyActive, msg := "Mission already active: " ++ mission_id }, st, [])
  | none =>
    match loader mission_id with
    | .error e => (.error { kind := .missionNotFound, msg := e.msg }, st, [])
    | .ok sc =>
      match start_mission_create rt sc (containerNameFor mission_id uid) with
      | (.error e, evs) => (.error e, st, evs)
      | (.ok c, evs) =>
        match run_setup rt c sc.environment.setup with
        | (.error e, evs2) => (.error e, st, evs ++ evs2)
        | (.ok _, evs2) =>
          (.ok (), start_mission_commit st uid mission_id sc c, evs ++ evs2)

/-! start_mission helper lemmas. -/

theorem start_mission_already_active (rt : RtBehavior)
    (loader : String → Except Exc Scenario) (uid : Nat) (st : EngineState)
    (mid : String) (state : MissionState)
    (h : lookupKey st.active mid = some state) :
    start_mission rt loader uid st mid
      = (.error { kind := .missionAlreadyActive,
                  msg := "Mission already active: " ++ mid }, st, []) := by
  simp only [start_mission, h]

theorem start_mission_create_error_kind (rt : RtBehavior) (sc : Scenario)
    (cname : String) (e : Exc)
    (h : (start_mission_create rt sc cname).1 = .error e) :
    e.kind = .containerCreation := by
  simp only [start_mission_create, envWorkdir, Except.error.injEq] at h
  rw [← h]

theorem start_mission_create_fail (rt : RtBehavior)
    (loader : String → Except Exc Scenario) (uid : Nat) (st : EngineState)
    (mid : String) (sc : Scenario) (e : Exc)
    (hn : lookupKey st.active mid = none) (hl : loader mid = .ok sc)
    (hfail : (start_mission_create rt sc (containerNameFor mid uid)).1 = .error e) :
    start_mission rt loader uid st mid
      = (.error e, st, (start_mission_create rt sc (containerNameFor mid uid)).2) := by
  rcases hcq : start_mission_create rt sc (containerNameFor mid uid) with ⟨r1, evs⟩
  rw [hcq] at hfail
  have hr : r1 = .error e := hfail
  subst hr
  simp only [start_mission, hn, hl, hcq]

theorem wrapSetupError_kind (e : RtExc) :
    (wrapSetupError e).kind = .containerCreation := by
  rcases e with ⟨k, m, t⟩
  cases k <;> rfl

theorem run_setup_first_failure (rt : RtBehavior) (c : Container) (e : RtExc)
    (pre : List String) (cmd : String) (rest : List String)
    (hpre : ∀ p ∈ pre, ∃ out, rt.exec c p = .ok out)
    (hfail : rt.exec c cmd = .error e) :
    run_setup rt c (pre ++ cmd :: rest)
      = (.error (wrapSetupError e),
         pre.map (fun p => EngEvent.execCall c p)
           ++ [.execCall c cmd, .stopCall c, .removeCall c]) := by
  induction pre with
  | nil =>
    simp only [List.nil_append, run_setup, hfail, List.map_nil]
  | cons p ps ih =>
    obtain ⟨out, hout⟩ := hpre p (List.mem_cons_self p ps)
    have ih2 := ih (fun q hq => hpre q (List.mem_cons_of_mem p hq))
    simp only [List.cons_append, run_setup, hout, List.map_cons,
      List.append_eq, ih2]

theorem start_mission_error_frame (rt : RtBehavior)
    (loader : String → Except Exc Scenario) (uid : Nat) (st : EngineState)
    (mid : String) (e : Exc) :
    (start_mission rt loader uid st mid).1 = .error e →
    (start_mission rt loader uid st mid).2.1 = st := by
  unfold start_mission
  split
  · intro _; rfl
  · split
    · intro _; rfl
    · split
      · intro _; rfl
      · split
        · intro _; rfl
        · intro hc; exact Except.noConfusion hc

/-- The ContainerCreationError every start_mission call currently produces,
wrapping the AttributeError on the missing Environment.workdir field. -/
def workdirCreationError : Exc :=
  { kind := .containerCreation,
    msg := "Failed to create container: \x27Environment\x27 object has no attribute \x27workdir\x27" }

/-- C1 (code defect): with the empty active table, a loader that returns
the sample scenario, and a runtime that would answer every create and
execute call successfully, start_mission still fails with
ContainerCreationError, issues no runtime call at all (the event trace is
empty, so sandbox creation is never even requested), inserts no Mission
State and writes no progress record: the create_container argument
evaluation dereferences Environment.workdir, which the Pydantic model does
not declare, so the resulting AttributeError is wrapped into
ContainerCreationError before the runtime is reached. -/
theorem start_mission_workdir_code_bug :
    start_mission sampleRt (fun _ => .ok sampleScenario) 1
      { active := [], db := sampleDB } "linux/basics/navigation"
      = (.error workdirCreationError, { active := [], db := sampleDB }, []) := by
  rfl

/-- C5: start_mission is atomic on failure.  (a) If the mission id is
already in the active table it fails with the already-active error and
returns the state unchanged (the existing Mission State untouched).
(b) If the creation phase fails, the error is a ContainerCreationError and
the engine state is unchanged.  (c) If a setup command fails (after any
number of successful ones), the setup phase tears the just-created sandbox
down best-effort (stop then remove, after the executed commands) and fails
with a ContainerCreationError.  (d) Every failing start_mission call
returns the engine state unchanged, so a mission absent from the active
table before the call remains absent. -/
theorem start_mission_failure_atomicity :
    (∀ (rt : RtBehavior) (loader : String → Except Exc Scenario) (uid : Nat)
        (st : EngineState) (mid : String) (state : MissionState),
      lookupKey st.active mid = some state →
      start_mission rt loader uid st mid
        = (.error { kind := .missionAlreadyActive,
                    msg := "Mission already active: " ++ mid }, st, [])) ∧
    (∀ (rt : RtBehavior) (loader : String → Except Exc Scenario) (uid : Nat)
        (st : EngineState) (mid : String) (sc : Scenario) (e : Exc),
      lookupKey st.active mid = none → loader mid = .ok sc →
      (start_mission_create rt sc (containerNameFor mid uid)).1 = .error e →
      e.kind = .containerCreation ∧
      start_mission rt loader uid st mid
        = (.error e, st, (start_mission_create rt sc (containerNameFor mid uid)).2)) ∧
    (∀ (rt : RtBehavior) (c : Container) (e : RtExc) (pre : List String)
        (cmd : String) (rest : List String),
      (∀ p ∈ pre, ∃ out, rt.exec c p = .ok out) →
      rt.exec c cmd = .error e →
      run_setup rt c (pre ++ cmd :: rest)
        = (.error (wrapSetupError e),
           pre.map (fun p => EngEvent.execCall c p)
             ++ [.execCall c cmd, .stopCall c, .removeCall c]) ∧
      (wrapSetupError e).kind = .containerCreation) ∧
    (∀ (rt : RtBehavior) (loader : String → Except Exc Scenario) (uid : Nat)
        (st : EngineState) (mid : String) (e : Exc),
      (start_mission rt loader uid st mid).1 = .error e →
      (start_mission rt loader uid st mid).2.1 = st) := by
  refine ⟨?_, ?_, ?_, ?_⟩
  · intro rt loader uid st mid state h
    exact start_mission_already_active rt loader uid st mid state h
  · intro rt loader uid st mid sc e hn hl hfail
    exact ⟨start_mission_create_error_kind rt sc (containerNameFor mid uid) e hfail,
           start_mission_create_fail rt loader uid st mid sc e hn hl hfail⟩
  · intro rt c e pre cmd rest hpre hfail
    exact ⟨run_setup_first_failure rt c e pre cmd rest hpre hfail,
           wrapSetupError_kind e⟩
  · intro rt loader uid st mid e h
    exact start_mission_error_frame rt loader uid st mid e h

/-- A runtime behaviour whose execute calls always fail with a transient
connection error. -/
def failRt : RtBehavior :=
  { create := fun _ _ _ => .ok sampleContainer,
    exec := fun _ _ => .error (connectionErrorExc "daemon unreachable") }

def emptyEngineSt : EngineState := { active := [], db := sampleDB }

/-- C5 witness: the four atomicity clauses instantiated concretely: the
already-active rejection on the sample state, the creation failure on the
empty state, a failing single setup command with its teardown trace, and
the unchanged-state conclusion for the failing already-active call. -/
theorem start_mission_failure_atomicity_witness :
    start_mission sampleRt (fun _ => .ok sampleScenario) 1 sampleEngineSt
      "linux/basics/navigation"
      = (.error { kind := .missionAlreadyActive,
                  msg := "Mission already active: " ++ "linux/basics/navigation" },
         sampleEngineSt, []) ∧
    (workdirCreationError.kind = .containerCreation ∧
     start_mission sampleRt (fun _ => .ok sampleScenario) 1 emptyEngineSt
       "linux/basics/navigation"
       = (.error workdirCreationError, emptyEngineSt,
          (start_mission_create sampleRt sampleScenario
            (containerNameFor "linux/basics/navigation" 1)).2)) ∧
    (run_setup failRt sampleContainer
        (List.map (fun p => p) [] ++ "mkdir -p /home/learner/documents" :: [])
      = (.error (wrapSetupError (connectionErrorExc "daemon unreachable")),
         List.map (fun p => EngEvent.execCall sampleContainer p) []
           ++ [.execCall sampleContainer "mkdir -p /home/learner/documents",
               .stopCall sampleContainer, .removeCall sampleContainer]) ∧
     (wrapSetupError (connectionErrorExc "daemon unreachable")).kind
       = .containerCreation) ∧
    (start_mission sampleRt (fun _ => .ok sampleScenario) 1 sampleEngineSt
      "linux/basics/navigation").2.1 = sampleEngineSt := by
  refine ⟨?_, ?_, ?_, ?_⟩
  · exact start_mission_failure_atomicity.1 sampleRt (fun _ => .ok sampleScenario)
      1 sampleEngineSt "linux/basics/navigation" sampleState0 (by rfl)
  · exact start_mission_failure_atomicity.2.1 sampleRt
      (fun _ => .ok sampleScenario) 1 emptyEngineSt "linux/basics/navigation"
      sampleScenario workdirCreationError (by rfl) (by rfl) (by rfl)
  · exact start_mission_failure_atomicity.2.2.1 failRt sampleContainer
      (connectionErrorExc "daemon unreachable") []
      "mkdir -p /home/learner/documents" [] (by simp) (by rfl)
  · exact start_mission_failure_atomicity.2.2.2 sampleRt
      (fun _ => .ok sampleScenario) 1 sampleEngineSt "linux/basics/navigation"
      { kind := .missionAlreadyActive,
        msg := "Mission already active: linux/basics/navigation" } (by rfl)

/-! ## Docker runtime execute_command (runtimes/docker_runtime.py lines
200-318)

The daemon is modelled as an environment assigning each attempt index the
ping result, the exec outcome and the time.time() value observed during
that attempt.  The loop is embedded with explicit fuel equal to the number
of remaining iterations of `for attempt in range(max_retries)`. -/

/-- Retry configuration, with the defaults of docker_runtime.py lines
225-227. -/
structure RetryConfig where
  max_retries : Nat := 5
  retry_base_delay : ℚ := 1
  retry_max_delay : ℚ := 10
  deriving Repr, DecidableEq

/-- What the daemon does when the loop body's try block runs. -/
inductive ExecOutcome
  | ok (output : String) (exit_code : Int)
  | notFound
  | transientErr (msg : String)
  | unexpected (msg : String)
  deriving Repr, DecidableEq

/-- The daemon's behaviour during one attempt. -/
structure AttemptEnv where
  ping_ok : Bool
  outcome : ExecOutcome
  now : ℚ
  deriving Repr, DecidableEq

/-- Observable actions of execute_command: progress reports, daemon pings,
daemon exec calls, and backoff sleeps (tagged with the attempt index they
follow). -/
inductive RtEvent
  | progressReport (msg : String) (attempt : Nat) (total : Nat)
  | pingCall
  | execCall (cmd : String)
  | sleepFor (afterAttempt : Nat) (duration : ℚ)
  deriving Repr, DecidableEq

/-- The exponential backoff delay of docker_runtime.py lines 243 and 298:
min(base_delay * 2 ** attempt, max_delay). -/
def backoffDelay (base maxDelay : ℚ) (attempt : Nat) : ℚ :=
  min (base * 2 ^ attempt) maxDelay

/-- The jitter term of docker_runtime.py lines 244 and 299:
delay * 0.1 * (2 * time.time() % 1 - 0.5), with the float modulo 1 embedded
as the fractional part. -/
def jitterOf (delay t : ℚ) : ℚ :=
  delay * (1/10) * (Int.fract (2 * t) - 1/2)

/-- The error message raised when the daemon stays unreachable through all
ping retries. -/
def exhaustedPingMsg (n : Nat) : String :=
  "Failed to execute command after " ++ toString n
    ++ " attempts. Docker daemon unreachable. Try: docker ps"

/-- The error message raised when transient exec errors exhaust all
retries. -/
def exhaustedExecMsg (n : Nat) : String :=
  "Failed to execute command after " ++ toString n
    ++ " attempts. Docker daemon may be unresponsive. Try: docker ps"

/-- The message of the circuit-open fast-failure (docker_runtime.py lines
219-222). -/
def circuitOpenMsg : String :=
  "Circuit breaker open: Too many recent failures. Docker daemon may be down. Please check: docker ps"

/-- The progress-report and ping prefix of an attempt: present for every
attempt after the first. -/
def preEvents (maxRetries attempt : Nat) : List RtEvent :=
  if 0 < attempt then
    [.progressReport "Reconnecting to Docker daemon" (attempt + 1) maxRetries, .pingCall]
  else []

/-- The retry loop of execute_command (docker_runtime.py lines 230-316):
for each attempt, re-validate connectivity when retrying (with backoff and
a further attempt while retries remain, else an exhausted connection
error), then run the command: success records health and synthesises an
exit-code string for silent failures; a missing container raises
permanently with no retry; a transient error backs off and retries while
attempts remain, else raises the exhausted connection error; anything else
raises an unexpected RuntimeError. -/
def execLoop (cfg : RetryConfig) (env : Nat → AttemptEnv)
    (container : Container) (command : String) :
    HealthCheck → Nat → Nat → Except RtExc String × HealthCheck × List RtEvent
  | h, _, 0 => (.ok "", h, [])
  | h, attempt, fuel + 1 =>
    let e := env attempt
    let pre := preEvents cfg.max_retries attempt
    if 0 < attempt ∧ e.ping_ok = false then
      if attempt < cfg.max_retries - 1 then
        let delay := backoffDelay cfg.retry_base_delay cfg.retry_max_delay attempt
        let tail := execLoop cfg env container command h (attempt + 1) fuel
        (tail.1, tail.2.1, pre ++ .sleepFor attempt (delay + jitterOf delay e.now) :: tail.2.2)
      else
        (.error (connectionErrorExc (exhaustedPingMsg cfg.max_retries)), h.record_failure, pre)
    else
      match e.outcome with
      | .ok output exit_code =>
        let h1 := h.record_success e.now
        (if exit_code != 0 && output == "" then
           .ok ("Command exited with code " ++ toString exit_code)
         else .ok output,
         h1, pre ++ [.execCall command])
      | .notFound =>
        (.error (containerNotFoundExc ("Container " ++ container.name
            ++ " no longer exists. It may have been stopped or removed.")),
         h, pre ++ [.execCall command])
      | .transientErr _ =>
        if attempt < cfg.max_retries - 1 then
          let delay := backoffDelay cfg.retry_base_delay cfg.retry_max_delay attempt
          let tail := execLoop cfg env container command h (attempt + 1) fuel
          (tail.1, tail.2.1,
           pre ++ .execCall command :: .sleepFor attempt (delay + jitterOf delay e.now) :: tail.2.2)
        else
          (.error (connectionErrorExc (exhaustedExecMsg cfg.max_retries)),
           h.record_failure, pre ++ [.execCall command])
      | .unexpected m =>
        (.error (unexpectedRuntimeExc ("Unexpected error: " ++ m)), h, pre ++ [.execCall command])

/-- DockerRuntime.execute_command: consult the circuit breaker; when it
blocks, fail fast with a ConnectionError and no daemon interaction at all;
otherwise run the retry loop over all max_retries attempts. -/
def execute_command (cfg : RetryConfig) (env : Nat → AttemptEnv)
    (h : HealthCheck) (now : ℚ) (container : Container) (command : String) :
    Except RtExc String × HealthCheck × List RtEvent :=
  let sa := h.should_attempt now
  if sa.1 = false then
    (.error (connectionErrorExc circuitOpenMsg), sa.2, [])
  else
    execLoop cfg env container command sa.2 0 cfg.max_retries

/-! Backoff helper lemmas. -/

theorem backoffDelay_nonneg (base maxd : ℚ) (k : Nat)
    (hb : 0 ≤ base) (hm : 0 ≤ maxd) : 0 ≤ backoffDelay base maxd k := by
  unfold backoffDelay
  exact le_min (by positivity) hm

theorem abs_jitterOf_le (delay t : ℚ) (hd : 0 ≤ delay) :
    |jitterOf delay t| ≤ (1/10) * delay := by
  unfold jitterOf
  have h0 := Int.fract_nonneg (2 * t)
  have h1 := Int.fract_lt_one (2 * t)
  have habs : |Int.fract (2 * t) - 1/2| ≤ 1/2 :=
    abs_le.mpr ⟨by linarith, by linarith⟩
  calc |delay * (1/10) * (Int.fract (2 * t) - 1/2)|
      = delay * (1/10) * |Int.fract (2 * t) - 1/2| := by
        rw [abs_mul, abs_of_nonneg (by positivity)]
    _ ≤ delay * (1/10) * (1/2) := by
        exact mul_le_mul_of_nonneg_left habs (by positivity)
    _ ≤ (1/10) * delay := by linarith

theorem no_sleep_in_pre (mr attempt k : Nat) (d : ℚ) :
    RtEvent.sleepFor k d ∉ preEvents mr attempt := by
  unfold preEvents
  split <;> simp

theorem no_sleep_in_pre_exec (mr attempt k : Nat) (d : ℚ) (cmd : String) :
    RtEvent.sleepFor k d ∉ preEvents mr attempt ++ [RtEvent.execCall cmd] := by
  intro hmem
  rcases List.mem_append.mp hmem with hpre | hone
  · exact no_sleep_in_pre mr attempt k d hpre
  · simp at hone

theorem execLoop_sleep_bound (cfg : RetryConfig) (env : Nat → AttemptEnv)
    (container : Container) (command : String)
    (hb : 0 ≤ cfg.retry_base_delay) (hm : 0 ≤ cfg.retry_max_delay) :
    ∀ (fuel attempt : Nat) (h : HealthCheck) (k : Nat) (d : ℚ),
      RtEvent.sleepFor k d ∈ (execLoop cfg env container command h attempt fuel).2.2 →
      |d - backoffDelay cfg.retry_base_delay cfg.retry_max_delay k|
        ≤ (1/10) * backoffDelay cfg.retry_base_delay cfg.retry_max_delay k := by
  intro fuel
  induction fuel with
  | zero =>
    intro attempt h k d hmem
    simp [execLoop] at hmem
  | succ f ih =>
    intro attempt h k d hmem
    have hdel := backoffDelay_nonneg cfg.retry_base_delay cfg.retry_max_delay
      attempt hb hm
    simp only [execLoop] at hmem
    by_cases hping : 0 < attempt ∧ (env attempt).ping_ok = false
    · rw [if_pos hping] at hmem
      by_cases hlt : attempt < cfg.max_retries - 1
      · rw [if_pos hlt] at hmem
        simp only [List.mem_append, List.mem_cons] at hmem
        rcases hmem with hpre | heq | htail
        · exact absurd hpre (no_sleep_in_pre _ _ _ _)
        · obtain ⟨hk, hd2⟩ : k = attempt ∧
              d = backoffDelay cfg.retry_base_delay cfg.retry_max_delay attempt
                + jitterOf (backoffDelay cfg.retry_base_delay cfg.retry_max_delay attempt)
                    (env attempt).now := by
            simpa using heq
          subst hk
          rw [hd2, add_sub_cancel_left]
          exact abs_jitterOf_le _ _ hdel
        · exact ih (attempt + 1) h k d htail
      · rw [if_neg hlt] at hmem
        exact absurd hmem (no_sleep_in_pre _ _ _ _)
    · rw [if_neg hping] at hmem
      rcases ho : (env attempt).outcome with ⟨out, code⟩ | _ | m | m
      all_goals rw [ho] at hmem
      · exact absurd hmem (no_sleep_in_pre_exec _ _ _ _ _)
      · exact absurd hmem (no_sleep_in_pre_exec _ _ _ _ _)
      · by_cases hlt : attempt < cfg.max_retries - 1
        · rw [if_pos hlt] at hmem
          simp only [List.mem_append, List.mem_cons] at hmem
          rcases hmem with hpre | heq | heq2 | htail
          · exact absurd hpre (no_sleep_in_pre _ _ _ _)
          · simp at heq
          · obtain ⟨hk, hd2⟩ : k = attempt ∧
                d = backoffDelay cfg.retry_base_delay cfg.retry_max_delay attempt
                  + jitterOf (backoffDelay cfg.retry_base_delay cfg.retry_max_delay attempt)
                      (env attempt).now := by
              simpa using heq2
            subst hk
            rw [hd2, add_sub_cancel_left]
            exact abs_jitterOf_le _ _ hdel
          · exact ih (attempt + 1) h k d htail
        · rw [if_neg hlt] at hmem
          exact absurd hmem (no_sleep_in_pre_exec _ _ _ _ _)
      · exact absurd hmem (no_sleep_in_pre_exec _ _ _ _ _)

theorem execute_command_notfound_immediate (cfg : RetryConfig)
    (env : Nat → AttemptEnv) (h : HealthCheck) (now : ℚ)
    (container : Container) (command : String)
    (hopen : h.circuit_open = false) (hmr : 1 ≤ cfg.max_retries)
    (hnf : (env 0).outcome = .notFound) :
    execute_command cfg env h now container command
      = (.error (containerNotFoundExc ("Container " ++ container.name
           ++ " no longer exists. It may have been stopped or removed.")),
         h, [.execCall command]) := by
  have hsa : h.should_attempt now = (true, h) := by
    unfold HealthCheck.should_attempt
    rw [hopen]
    simp
  obtain ⟨f, hf⟩ : ∃ f, cfg.max_retries = f + 1 := ⟨cfg.max_retries - 1, by omega⟩
  simp only [execute_command, hsa]
  rw [if_neg (by simp)]
  rw [hf]
  simp only [execLoop, hnf, preEvents]
  simp

/-- C4: in execute_command's retry loop, every backoff sleep following
attempt k (0-indexed) has duration min(base_delay * 2 ^ k, max_delay) plus
a jitter of magnitude at most 10 percent of that delay (for nonnegative
configured delays); and a permanent container-not-found failure on the
first attempt raises ContainerNotFoundError immediately, with exactly one
daemon exec call in the trace and no backoff sleep - no second attempt. -/
theorem execute_command_backoff_and_permanent :
    (∀ (cfg : RetryConfig) (env : Nat → AttemptEnv) (container : Container)
        (command : String) (fuel attempt : Nat) (h : HealthCheck)
        (k : Nat) (d : ℚ),
      0 ≤ cfg.retry_base_delay → 0 ≤ cfg.retry_max_delay →
      RtEvent.sleepFor k d ∈ (execLoop cfg env container command h attempt fuel).2.2 →
      |d - backoffDelay cfg.retry_base_delay cfg.retry_max_delay k|
        ≤ (1/10) * backoffDelay cfg.retry_base_delay cfg.retry_max_delay k) ∧
    (∀ (cfg : RetryConfig) (env : Nat → AttemptEnv) (h : HealthCheck)
        (now : ℚ) (container : Container) (command : String),
      h.circuit_open = false → 1 ≤ cfg.max_retries →
      (env 0).outcome = .notFound →
      execute_command cfg env h now container command
        = (.error (containerNotFoundExc ("Container " ++ container.name
             ++ " no longer exists. It may have been stopped or removed.")),
           h, [.execCall command])) := by
  constructor
  · intro cfg env container command fuel attempt h k d hb hm hmem
    exact execLoop_sleep_bound cfg env container command hb hm
      fuel attempt h k d hmem
  · intro cfg env h now container command hopen hmr hnf
    exact execute_command_notfound_immediate cfg env h now container command
      hopen hmr hnf

/-- The default retry configuration (max_retries 5, base delay 1, max
delay 10). -/
def cfgDefault : RetryConfig := {}

/-- A daemon environment whose first attempt fails transiently (observed at
time 0) and whose later attempts succeed. -/
def jitterEnv : Nat → AttemptEnv := fun k =>
  if k = 0 then { ping_ok := true, outcome := .transientErr "reset", now := 0 }
  else { ping_ok := true, outcome := .ok "done" 0, now := 0 }

/-- A daemon environment that reports the container missing on every
attempt. -/
def notFoundEnv : Nat → AttemptEnv :=
  fun _ => { ping_ok := true, outcome := .notFound, now := 0 }

/-- C4 witness: the backoff bound instantiated at the concrete sleep event
the transient first attempt produces (duration is the attempt-0 delay plus
its jitter at time 0), and the not-found short-circuit run on the default
configuration: one exec call, no sleep, immediate ContainerNotFoundError. -/
theorem execute_command_backoff_and_permanent_witness :
    |(backoffDelay cfgDefault.retry_base_delay cfgDefault.retry_max_delay 0
        + jitterOf (backoffDelay cfgDefault.retry_base_delay cfgDefault.retry_max_delay 0)
            (jitterEnv 0).now)
      - backoffDelay cfgDefault.retry_base_delay cfgDefault.retry_max_delay 0|
      ≤ (1/10) * backoffDelay cfgDefault.retry_base_delay cfgDefault.retry_max_delay 0 ∧
    execute_command cfgDefault notFoundEnv healthDefault 0 sampleContainer "ls"
      = (.error (containerNotFoundExc ("Container " ++ sampleContainer.name
           ++ " no longer exists. It may have been stopped or removed.")),
         healthDefault, [.execCall "ls"]) := by
  constructor
  · have htrace : (execLoop cfgDefault jitterEnv sampleContainer "ls"
        healthDefault 0 1).2.2
        = [RtEvent.execCall "ls",
           RtEvent.sleepFor 0
             (backoffDelay cfgDefault.retry_base_delay cfgDefault.retry_max_delay 0
               + jitterOf (backoffDelay cfgDefault.retry_base_delay
                   cfgDefault.retry_max_delay 0) (jitterEnv 0).now)] := rfl
    refine execute_command_backoff_and_permanent.1 cfgDefault jitterEnv
      sampleContainer "ls" 1 0 healthDefault 0 _
      (by norm_num [cfgDefault]) (by norm_num [cfgDefault]) ?_
    rw [htrace]
    simp
  · exact execute_command_backoff_and_permanent.2 cfgDefault notFoundEnv
      healthDefault 0 sampleContainer "ls" rfl (by decide) rfl

/-! C8 fixtures: a health state whose circuit is open and not yet timed
out, an all-transient daemon, and a single-attempt retry configuration. -/

def openHealth : HealthCheck :=
  { last_success := 100, consecutive_failures := 5, circuit_open := true }

def transientEnv : Nat → AttemptEnv :=
  fun _ => { ping_ok := true, outcome := .transientErr "connection reset", now := 0 }

def oneRetryCfg : RetryConfig := { max_retries := 1 }

/-- C8 counterexample: the claim asserts the circuit-open error is
distinguishable in kind from the exhausted-retries connection error.  On a
concrete open circuit (opened, 10 seconds into a 30-second timeout) and on
a concrete run that exhausts its single retry with transient errors,
execute_command produces two errors of the same ConnectionError kind with
the same transient=true marker - the code distinguishes them only by
message text, refuting the claim as stated. -/
theorem circuit_open_error_kind_counterexample :
    (execute_command oneRetryCfg transientEnv openHealth 110 sampleContainer "ls").1
      = .error (connectionErrorExc circuitOpenMsg) ∧
    (execute_command oneRetryCfg transientEnv healthDefault 0 sampleContainer "ls").1
      = .error (connectionErrorExc (exhaustedExecMsg 1)) ∧
    (connectionErrorExc circuitOpenMsg).kind
      = (connectionErrorExc (exhaustedExecMsg 1)).kind ∧
    (connectionErrorExc circuitOpenMsg).transient = true ∧
    (connectionErrorExc (exhaustedExecMsg 1)).transient = true := by
  have hsa : (openHealth.should_attempt 110).1 = false := by
    unfold HealthCheck.should_attempt
    norm_num [openHealth]
  refine ⟨?_, rfl, rfl, rfl, rfl⟩
  simp only [execute_command]
  rw [if_pos hsa]

/-- C8 (amended): when the circuit breaker's should_attempt() returns
false, execute_command raises a connection-class error carrying
transient=true and the circuit-breaker message, without issuing any daemon
call (the event trace is empty); this error is NOT distinguishable in kind
from the connection error raised after exhausting all retries - both are
the ConnectionError kind with transient=true - and callers can tell them
apart only by message text. -/
theorem circuit_open_error_amended (cfg : RetryConfig)
    (env : Nat → AttemptEnv) (h : HealthCheck) (now : ℚ)
    (container : Container) (command : String)
    (hsa : (h.should_attempt now).1 = false) :
    execute_command cfg env h now container command
      = (.error (connectionErrorExc circuitOpenMsg), (h.should_attempt now).2, []) ∧
    (connectionErrorExc circuitOpenMsg).kind = RtKind.connectionError ∧
    (connectionErrorExc circuitOpenMsg).transient = true ∧
    (connectionErrorExc circuitOpenMsg).kind
      = (connectionErrorExc (exhaustedExecMsg cfg.max_retries)).kind ∧
    (connectionErrorExc circuitOpenMsg).transient
      = (connectionErrorExc (exhaustedExecMsg cfg.max_retries)).transient := by
  refine ⟨?_, rfl, rfl, rfl, rfl⟩
  simp only [execute_command]
  rw [if_pos hsa]

/-- C8 witness: the amended circuit-open behaviour instantiated on the open
health state 10 seconds into its timeout window. -/
theorem circuit_open_error_amended_witness :
    execute_command oneRetryCfg transientEnv openHealth 110 sampleContainer "ls"
      = (.error (connectionErrorExc circuitOpenMsg),
         (openHealth.should_attempt 110).2, []) ∧
    (connectionErrorExc circuitOpenMsg).kind = RtKind.connectionError ∧
    (connectionErrorExc circuitOpenMsg).transient = true ∧
    (connectionErrorExc circuitOpenMsg).kind
      = (connectionErrorExc (exhaustedExecMsg oneRetryCfg.max_retries)).kind ∧
    (connectionErrorExc circuitOpenMsg).transient
      = (connectionErrorExc (exhaustedExecMsg oneRetryCfg.max_retries)).transient :=
  circuit_open_error_amended oneRetryCfg transientEnv openHealth 110
    sampleContainer "ls"
    (by unfold HealthCheck.should_attempt; norm_num [openHealth])
